import Mathlib

/-!
# Verification of the Trustpilot API client core

A shallow embedding of `src/trustpilotEndpoint.py`: the configuration
dataclass, the error type, the request executor `_make_request`, the
public operations `find_business_unit`, `get_reviews`,
`get_all_reviews`, and theorems about their behaviour.

The network is modelled as an input: an `HttpOutcome` describes what a
single HTTP exchange does (a response with a status code, raw body text
and decoded JSON payload, or a network-level failure).  The decoded JSON
payload is an abstract type parameter `α`, since the client performs no
schema validation.  Effects of the executor (the single GET request it
issues, whether the rate-limit sleep executed) are recorded explicitly
in the returned `RequestResult`.
-/

namespace Trustpilot

/-- `TrustpilotConfig` from the source.  The Python field
`rate_limit_delay: float = 0.1` (seconds) is represented in
milliseconds to stay within exact arithmetic; its value is never
branched on by the client. -/
structure TrustpilotConfig where
  api_key : String
  base_url : String
  timeout : Nat
  rate_limit_delay_ms : Nat
deriving Repr, DecidableEq

/-- Constructor mirroring the dataclass defaults
(`base_url = "https://api.trustpilot.com/v1"`, `timeout = 30`,
`rate_limit_delay = 0.1`). -/
def TrustpilotConfig.withDefaults (api_key : String) : TrustpilotConfig :=
  ⟨api_key, "https://api.trustpilot.com/v1", 30, 100⟩

/-- The exception `TrustpilotAPIError`.  In Python it is a single class
carrying a message string; each constructor here corresponds to one
`raise` site of `_make_request`, and `TrustpilotAPIError.message`
recovers the exact message raised there. -/
inductive TrustpilotAPIError where
  | authentication : TrustpilotAPIError
  | notFound : TrustpilotAPIError
  | rateLimit : TrustpilotAPIError
  | timedOut : TrustpilotAPIError
  | connection : TrustpilotAPIError
  | requestError (status : Nat) (body : String) : TrustpilotAPIError
  | requestFailed (description : String) : TrustpilotAPIError
deriving Repr, DecidableEq

/-- The message string attached at each `raise` site in
`_make_request`. -/
def TrustpilotAPIError.message : TrustpilotAPIError → String
  | .authentication => "Invalid API key or unauthorized access"
  | .notFound => "Resource not found"
  | .rateLimit => "Rate limit exceeded. Please wait before making more requests."
  | .timedOut => "Request timed out"
  | .connection => "Connection error occurred"
  | .requestError status body =>
      "API request failed with status " ++ toString status ++ ": " ++ body
  | .requestFailed description => "Request failed: " ++ description

/-- The error taxonomy of the specification: one family of failures
distinguished by kind.  `requestError` (non-200 status) and
`requestFailed` (generic transport failure) are both the spec's
`RequestError(status, body-or-description)` kind. -/
inductive ErrorKind where
  | authenticationError : ErrorKind
  | notFoundError : ErrorKind
  | rateLimitError : ErrorKind
  | timeoutError : ErrorKind
  | connectionError : ErrorKind
  | requestErrorKind : ErrorKind
deriving Repr, DecidableEq

/-- The kind of a failure, as a caller inspecting the error can
determine it. -/
def TrustpilotAPIError.kind : TrustpilotAPIError → ErrorKind
  | .authentication => .authenticationError
  | .notFound => .notFoundError
  | .rateLimit => .rateLimitError
  | .timedOut => .timeoutError
  | .connection => .connectionError
  | .requestError _ _ => .requestErrorKind
  | .requestFailed _ => .requestErrorKind

/-- A query-parameter value: Python passes both strings (`name=domain`)
and ints (`perPage`, `page`) to `requests`. -/
inductive ParamVal where
  | str (s : String) : ParamVal
  | num (n : Int) : ParamVal
deriving Repr, DecidableEq

/-- The GET request the executor hands to the session: full URL and
query parameters, in order. -/
structure IssuedRequest where
  url : String
  params : Option (List (String × ParamVal))
deriving Repr, DecidableEq

/-- What one HTTP exchange does, from the client's point of view.
`response status text json` is a completed exchange: `text` is the raw
body (`response.text`) and `json` its decoded form (`response.json()`);
the client only reads `json` on a 200 and only reads `text` on other
statuses.  The three remaining constructors are the exceptions
`session.get` can raise, in the order the `except` clauses
discriminate them: `requests.exceptions.Timeout`,
`requests.exceptions.ConnectionError`, and any other
`requests.exceptions.RequestException` (with `str(e)`). -/
inductive HttpOutcome (α : Type) where
  | response (status : Nat) (text : String) (json : α) : HttpOutcome α
  | timeout : HttpOutcome α
  | connectionFailure : HttpOutcome α
  | requestException (description : String) : HttpOutcome α
deriving Repr, DecidableEq

/-- Outcome of one call to the executor: the single GET it issued,
whether `time.sleep(rate_limit_delay)` executed before control
returned, and the decoded payload or the raised error. -/
structure RequestResult (α : Type) where
  issued : IssuedRequest
  slept : Bool
  result : Except TrustpilotAPIError α
deriving Repr

/-- `endpoint.lstrip('/')`: drop the leading `'/'` characters. -/
def lstripSlashes (s : String) : String :=
  String.mk (s.data.dropWhile (fun c => c == '/'))

/-- `url = f"{self.config.base_url}/{endpoint.lstrip('/')}"`. -/
def buildUrl (config : TrustpilotConfig) (endpoint : String) : String :=
  config.base_url ++ "/" ++ lstripSlashes endpoint

/-- `TrustpilotAPIClient._make_request`.  The `try` block issues the
GET, sleeps, then maps the status code; the `except` clauses translate
transport exceptions.  Note that when `session.get` itself raises, the
`time.sleep` inside the `try` is skipped. -/
def makeRequest (config : TrustpilotConfig) (endpoint : String)
    (params : Option (List (String × ParamVal))) (net : HttpOutcome α) :
    RequestResult α :=
  let issued : IssuedRequest := ⟨buildUrl config endpoint, params⟩
  match net with
  | .response status text json =>
      { issued := issued, slept := true,
        result :=
          if status = 200 then .ok json
          else if status = 401 then .error .authentication
          else if status = 404 then .error .notFound
          else if status = 429 then .error .rateLimit
          else .error (.requestError status text) }
  | .timeout =>
      { issued := issued, slept := false, result := .error .timedOut }
  | .connectionFailure =>
      { issued := issued, slept := false, result := .error .connection }
  | .requestException d =>
      { issued := issued, slept := false, result := .error (.requestFailed d) }

/-- `TrustpilotAPIClient.find_business_unit`. -/
def find_business_unit (config : TrustpilotConfig) (domain : String)
    (net : HttpOutcome α) : RequestResult α :=
  makeRequest config "business-units/find" (some [("name", .str domain)]) net

/-- `TrustpilotAPIClient.get_business_unit_info`. -/
def get_business_unit_info (config : TrustpilotConfig) (buid : String)
    (net : HttpOutcome α) : RequestResult α :=
  makeRequest config ("business-units/" ++ buid) none net

/-- `TrustpilotAPIClient.get_reviews` (Python defaults: `per_page=20`,
`page=1`).  `perPage` is clamped by `min(per_page, 100)`. -/
def get_reviews (config : TrustpilotConfig) (buid : String)
    (per_page : Int) (page : Int) (net : HttpOutcome α) : RequestResult α :=
  makeRequest config ("business-units/" ++ buid ++ "/reviews")
    (some [("perPage", .num (min per_page 100)), ("page", .num page)]) net

/-- `TrustpilotAPIClient.get_business_statistics`. -/
def get_business_statistics (config : TrustpilotConfig) (buid : String)
    (net : HttpOutcome α) : RequestResult α :=
  makeRequest config ("business-units/" ++ buid ++ "/statistics") none net

/-! ## The pagination aggregator `get_all_reviews`

The responses for the `get_reviews` calls made by the loop are given by
a `stream` assigning an `HttpOutcome` to each page number.  The decoded
payload of a review-page response is modelled by the one field the loop
reads: `response.get('reviews', [])` — `reviews` is `none` when the key
is absent, in which case the default `[]` is used.  A review is an
abstract value of type `ρ`.

The Python loop is `while True` and can diverge, so the embedding is
fuel-indexed: `none` means the fuel ran out before the loop returned. -/

/-- The decoded JSON of one review-page response, restricted to the
`reviews` key the aggregator reads (`none` = key absent). -/
structure ReviewsPayload (ρ : Type) where
  reviews : Option (List ρ)
deriving Repr, DecidableEq

/-- What a finished run of `get_all_reviews` produced: the accumulated
`all_reviews` list and the GET requests issued, in order. -/
structure AggResult (ρ : Type) where
  all_reviews : List ρ
  issued : List IssuedRequest
deriving Repr, DecidableEq

/-- The guard `if max_pages and page > max_pages: break`.  Python
truthiness: `None` and `0` are falsy, any other int (negative included)
is truthy. -/
def maxPagesStop (max_pages : Option Int) (page : Int) : Bool :=
  match max_pages with
  | none => false
  | some m => m != 0 && page > m

/-- The `while True` loop body of `get_all_reviews`, with explicit
state (`page`, accumulator, issued requests) and fuel. -/
def getAllReviewsLoop (config : TrustpilotConfig) (buid : String)
    (stream : Int → HttpOutcome (ReviewsPayload ρ)) (max_pages : Option Int) :
    Nat → Int → List ρ → List IssuedRequest → Option (AggResult ρ)
  | 0, _, _, _ => none
  | fuel + 1, page, acc, issued =>
    if maxPagesStop max_pages page then some ⟨acc, issued⟩
    else
      let r := get_reviews config buid 100 page (stream page)
      let issued' := issued ++ [r.issued]
      match r.result with
      | .error _ => some ⟨acc, issued'⟩
      | .ok payload =>
          let reviews := payload.reviews.getD []
          if reviews.isEmpty then some ⟨acc, issued'⟩
          else if reviews.length < 100 then some ⟨acc ++ reviews, issued'⟩
          else getAllReviewsLoop config buid stream max_pages fuel
                 (page + 1) (acc ++ reviews) issued'

/-- `TrustpilotAPIClient.get_all_reviews`: start at page 1 with an
empty accumulator. -/
def get_all_reviews (config : TrustpilotConfig) (buid : String)
    (stream : Int → HttpOutcome (ReviewsPayload ρ)) (max_pages : Option Int)
    (fuel : Nat) : Option (AggResult ρ) :=
  getAllReviewsLoop config buid stream max_pages fuel 1 [] []

/-- The loop returns for some fuel: the Python call terminates. -/
def Terminates (config : TrustpilotConfig) (buid : String)
    (stream : Int → HttpOutcome (ReviewsPayload ρ))
    (max_pages : Option Int) : Prop :=
  ∃ fuel r, get_all_reviews config buid stream max_pages fuel = some r

/-- A page at which the loop body breaks: the request raises an API
error, or the extracted review list is empty, or it has fewer than 100
reviews. -/
def pageStops (config : TrustpilotConfig) (buid : String)
    (stream : Int → HttpOutcome (ReviewsPayload ρ)) (page : Int) : Bool :=
  match (get_reviews config buid 100 page (stream page)).result with
  | .error _ => true
  | .ok payload =>
      let reviews := payload.reviews.getD []
      reviews.isEmpty || decide (reviews.length < 100)

/-- The concatenation, in page order, of the review lists of `n`
consecutive pages starting at page `q`. -/
def concatPages (pages : Int → List ρ) (q : Int) : Nat → List ρ
  | 0 => []
  | n + 1 => pages q ++ concatPages pages (q + 1) n

/-- The GET request `get_reviews(buid, per_page=100, page=page)`
issues. -/
def reviewsRequest (config : TrustpilotConfig) (buid : String)
    (page : Int) : IssuedRequest :=
  ⟨buildUrl config ("business-units/" ++ buid ++ "/reviews"),
   some [("perPage", .num 100), ("page", .num page)]⟩

/-- The requests issued for `n` consecutive pages starting at `q`. -/
def reviewsRequests (config : TrustpilotConfig) (buid : String)
    (q : Int) : Nat → List IssuedRequest
  | 0 => []
  | n + 1 => reviewsRequest config buid q :: reviewsRequests config buid (q + 1) n

/-! ## Concrete simulated data

The simulated page stream of the specification's testable properties:
page 1 returns 100 reviews, page 2 returns 100 reviews, page 3 returns
42 reviews.  Reviews are numbered so that the concatenation in page
order is `List.range 242`. -/

/-- A concrete configuration for the simulations. -/
def cfgSim : TrustpilotConfig := TrustpilotConfig.withDefaults "test-api-key"

/-- The simulated review lists: 100, 100 and 42 reviews on pages 1, 2
and 3. -/
def simPages : Int → List Nat := fun p =>
  if p = 1 then List.range 100
  else if p = 2 then (List.range 100).map (fun i => 100 + i)
  else if p = 3 then (List.range 42).map (fun i => 200 + i)
  else []

/-- The simulated stream: every page responds 200 with its review
list. -/
def simStream : Int → HttpOutcome (ReviewsPayload Nat) := fun p =>
  HttpOutcome.response 200 "" ⟨some (simPages p)⟩

/-- The simulated stream where page 1 returns 100 reviews and page 2
answers HTTP 429, which `_make_request` turns into the rate-limit
error. -/
def errStream : Int → HttpOutcome (ReviewsPayload Nat) := fun p =>
  if p = 1 then HttpOutcome.response 200 "" ⟨some (List.range 100)⟩
  else HttpOutcome.response 429 "too many requests" ⟨none⟩

/-- `true` exactly when the HTTP exchange produced a response (of any
status), as opposed to raising a network-level exception. -/
def HttpOutcome.isResponse : HttpOutcome α → Bool
  | .response _ _ _ => true
  | _ => false

/-! ## General lemmas about the executor -/

/-- The executor issues the same single GET request whatever the
network does with it. -/
theorem makeRequest_issued (config : TrustpilotConfig) (endpoint : String)
    (params : Option (List (String × ParamVal))) (net : HttpOutcome α) :
    (makeRequest config endpoint params net).issued
      = ⟨buildUrl config endpoint, params⟩ := by
  cases net <;> rfl

/-- The single GET request `get_reviews` issues. -/
theorem get_reviews_issued (config : TrustpilotConfig) (buid : String)
    (per_page page : Int) (net : HttpOutcome α) :
    (get_reviews config buid per_page page net).issued
      = ⟨buildUrl config ("business-units/" ++ buid ++ "/reviews"),
         some [("perPage", .num (min per_page 100)), ("page", .num page)]⟩ := by
  cases net <;> rfl

/-- At page size 100 the issued request is `reviewsRequest`. -/
theorem get_reviews_issued_100 (config : TrustpilotConfig) (buid : String)
    (page : Int) (net : HttpOutcome α) :
    (get_reviews config buid 100 page net).issued = reviewsRequest config buid page := by
  cases net <;> rfl

/-- A 200 response makes `get_reviews` return the decoded payload. -/
theorem get_reviews_ok (config : TrustpilotConfig) (buid : String)
    (per_page page : Int) (text : String) (json : α) :
    (get_reviews config buid per_page page (.response 200 text json)).result
      = .ok json := rfl

/-- `reviewsRequests` issues one request per page. -/
theorem reviewsRequests_length (config : TrustpilotConfig) (buid : String) :
    ∀ (n : Nat) (q : Int), (reviewsRequests config buid q n).length = n := by
  intro n
  induction n with
  | zero => intro q; rfl
  | succ n ih => intro q; simpa [reviewsRequests] using ih (q + 1)

/-! ## Step lemmas for the pagination loop -/

/-- With fuel left, a true max-pages guard stops the loop at once. -/
theorem loop_step_guard (config : TrustpilotConfig) (buid : String)
    (stream : Int → HttpOutcome (ReviewsPayload ρ)) (max_pages : Option Int)
    (fuel : Nat) (page : Int) (acc : List ρ) (issued : List IssuedRequest)
    (hguard : maxPagesStop max_pages page = true) :
    getAllReviewsLoop config buid stream max_pages (fuel + 1) page acc issued
      = some ⟨acc, issued⟩ := by
  simp [getAllReviewsLoop, hguard]

/-- A failing page request stops the loop, returning the accumulator
(the error is not propagated: the result is a normal `some`). -/
theorem loop_step_error (config : TrustpilotConfig) (buid : String)
    (stream : Int → HttpOutcome (ReviewsPayload ρ)) (max_pages : Option Int)
    (fuel : Nat) (page : Int) (acc : List ρ) (issued : List IssuedRequest)
    (e : TrustpilotAPIError)
    (hguard : maxPagesStop max_pages page = false)
    (he : (get_reviews config buid 100 page (stream page)).result = .error e) :
    getAllReviewsLoop config buid stream max_pages (fuel + 1) page acc issued
      = some ⟨acc, issued ++ [reviewsRequest config buid page]⟩ := by
  simp [getAllReviewsLoop, hguard, he, get_reviews_issued_100]

/-- An empty review list stops the loop without extending the
accumulator. -/
theorem loop_step_empty (config : TrustpilotConfig) (buid : String)
    (stream : Int → HttpOutcome (ReviewsPayload ρ)) (max_pages : Option Int)
    (fuel : Nat) (page : Int) (acc : List ρ) (issued : List IssuedRequest)
    (payload : ReviewsPayload ρ)
    (hguard : maxPagesStop max_pages page = false)
    (hok : (get_reviews config buid 100 page (stream page)).result = .ok payload)
    (hemp : payload.reviews.getD [] = []) :
    getAllReviewsLoop config buid stream max_pages (fuel + 1) page acc issued
      = some ⟨acc, issued ++ [reviewsRequest config buid page]⟩ := by
  simp [getAllReviewsLoop, hguard, hok, hemp, get_reviews_issued_100]

/-- A short (fewer than 100 reviews) non-empty page extends the
accumulator and stops the loop. -/
theorem loop_step_short (config : TrustpilotConfig) (buid : String)
    (stream : Int → HttpOutcome (ReviewsPayload ρ)) (max_pages : Option Int)
    (fuel : Nat) (page : Int) (acc : List ρ) (issued : List IssuedRequest)
    (payload : ReviewsPayload ρ)
    (hguard : maxPagesStop max_pages page = false)
    (hok : (get_reviews config buid 100 page (stream page)).result = .ok payload)
    (hne : payload.reviews.getD [] ≠ [])
    (hlen : (payload.reviews.getD []).length < 100) :
    getAllReviewsLoop config buid stream max_pages (fuel + 1) page acc issued
      = some ⟨acc ++ payload.reviews.getD [],
              issued ++ [reviewsRequest config buid page]⟩ := by
  simp [getAllReviewsLoop, hguard, hok, hne, hlen, get_reviews_issued_100]

/-- A full page extends the accumulator and the loop moves on to the
next page. -/
theorem loop_step_full (config : TrustpilotConfig) (buid : String)
    (stream : Int → HttpOutcome (ReviewsPayload ρ)) (max_pages : Option Int)
    (fuel : Nat) (page : Int) (acc : List ρ) (issued : List IssuedRequest)
    (payload : ReviewsPayload ρ)
    (hguard : maxPagesStop max_pages page = false)
    (hok : (get_reviews config buid 100 page (stream page)).result = .ok payload)
    (hlen : 100 ≤ (payload.reviews.getD []).length) :
    getAllReviewsLoop config buid stream max_pages (fuel + 1) page acc issued
      = getAllReviewsLoop config buid stream max_pages fuel (page + 1)
          (acc ++ payload.reviews.getD [])
          (issued ++ [reviewsRequest config buid page]) := by
  have hne : payload.reviews.getD [] ≠ [] := by
    intro h
    rw [h] at hlen
    simp at hlen
  have hlt : ¬ (payload.reviews.getD []).length < 100 := by omega
  simp [getAllReviewsLoop, hguard, hok, hne, hlt, get_reviews_issued_100]

/-! ## Claim theorems: the request executor -/

/-- **C3.** Through the request executor, HTTP 401 yields the
authentication error, 404 the not-found error, 429 the rate-limit
error, any other non-200 status a request error carrying the status
code and the raw body text, and 200 yields the decoded JSON body. -/
theorem makeRequest_status_mapping (config : TrustpilotConfig) (endpoint : String)
    (params : Option (List (String × ParamVal))) (text : String) (json : α)
    (status : Nat) (h200 : status ≠ 200) (h401 : status ≠ 401)
    (h404 : status ≠ 404) (h429 : status ≠ 429) :
    (makeRequest config endpoint params (.response 401 text json)).result
        = .error .authentication ∧
    TrustpilotAPIError.authentication.kind = ErrorKind.authenticationError ∧
    (makeRequest config endpoint params (.response 404 text json)).result
        = .error .notFound ∧
    TrustpilotAPIError.notFound.kind = ErrorKind.notFoundError ∧
    (makeRequest config endpoint params (.response 429 text json)).result
        = .error .rateLimit ∧
    TrustpilotAPIError.rateLimit.kind = ErrorKind.rateLimitError ∧
    (makeRequest config endpoint params (.response status text json)).result
        = .error (.requestError status text) ∧
    (TrustpilotAPIError.requestError status text).kind = ErrorKind.requestErrorKind ∧
    (makeRequest config endpoint params (.response 200 text json)).result
        = .ok json := by
  refine ⟨rfl, rfl, rfl, rfl, rfl, rfl, ?_, rfl, rfl⟩
  simp [makeRequest, h200, h401, h404, h429]

/-- Witness for C3 at status 500 with body `"oops"`. -/
theorem makeRequest_status_mapping_witness :
    (500 ≠ 200 ∧ 500 ≠ 401 ∧ 500 ≠ 404 ∧ 500 ≠ 429) ∧
    (makeRequest cfgSim "business-units/find" none
        (HttpOutcome.response 500 "oops" (7 : Nat))).result
      = .error (.requestError 500 "oops") :=
  ⟨by decide,
   (makeRequest_status_mapping cfgSim "business-units/find" none "oops" (7 : Nat)
      500 (by decide) (by decide) (by decide) (by decide)).2.2.2.2.2.2.1⟩

/-- **C4.** Every failure outcome of the executor is a value of the
single error family `TrustpilotAPIError`, and the spec's six kinds —
authentication, not-found, rate-limit, timeout, connection, request
error — are recovered from the error value by `kind` and are pairwise
distinct, so a caller distinguishes failures by inspecting the kind of
one exception type rather than by catching unrelated exception
types. -/
theorem apiErrors_one_family_by_kind (config : TrustpilotConfig) (endpoint : String)
    (params : Option (List (String × ParamVal))) (text : String) (json : α)
    (d : String) (status : Nat) (h200 : status ≠ 200) (h401 : status ≠ 401)
    (h404 : status ≠ 404) (h429 : status ≠ 429) :
    ∃ e1 e2 e3 e4 e5 e6 e7 : TrustpilotAPIError,
      (makeRequest config endpoint params (.response 401 text json)).result = .error e1 ∧
      (makeRequest config endpoint params (.response 404 text json)).result = .error e2 ∧
      (makeRequest config endpoint params (.response 429 text json)).result = .error e3 ∧
      (makeRequest config endpoint params (HttpOutcome.timeout : HttpOutcome α)).result
          = .error e4 ∧
      (makeRequest config endpoint params
          (HttpOutcome.connectionFailure : HttpOutcome α)).result = .error e5 ∧
      (makeRequest config endpoint params (.response status text json)).result = .error e6 ∧
      (makeRequest config endpoint params
          (HttpOutcome.requestException d : HttpOutcome α)).result = .error e7 ∧
      e1.kind = ErrorKind.authenticationError ∧
      e2.kind = ErrorKind.notFoundError ∧
      e3.kind = ErrorKind.rateLimitError ∧
      e4.kind = ErrorKind.timeoutError ∧
      e5.kind = ErrorKind.connectionError ∧
      e6.kind = ErrorKind.requestErrorKind ∧
      e7.kind = ErrorKind.requestErrorKind ∧
      List.Pairwise (fun a b => a ≠ b)
        [e1.kind, e2.kind, e3.kind, e4.kind, e5.kind, e6.kind] := by
  refine ⟨.authentication, .notFound, .rateLimit, .timedOut, .connection,
    .requestError status text, .requestFailed d,
    rfl, rfl, rfl, rfl, rfl, ?_, rfl, rfl, rfl, rfl, rfl, rfl, rfl, rfl, ?_⟩
  · simp [makeRequest, h200, h401, h404, h429]
  · simp [TrustpilotAPIError.kind]

/-- Witness for C4 at status 503. -/
theorem apiErrors_one_family_by_kind_witness :
    (503 ≠ 200 ∧ 503 ≠ 401 ∧ 503 ≠ 404 ∧ 503 ≠ 429) ∧
    (∃ e1 e2 e3 e4 e5 e6 e7 : TrustpilotAPIError,
      (makeRequest cfgSim "business-units/find" none
          (HttpOutcome.response 401 "denied" (0 : Nat))).result = .error e1 ∧
      (makeRequest cfgSim "business-units/find" none
          (HttpOutcome.response 404 "denied" (0 : Nat))).result = .error e2 ∧
      (makeRequest cfgSim "business-units/find" none
          (HttpOutcome.response 429 "denied" (0 : Nat))).result = .error e3 ∧
      (makeRequest cfgSim "business-units/find" none
          (HttpOutcome.timeout : HttpOutcome Nat)).result = .error e4 ∧
      (makeRequest cfgSim "business-units/find" none
          (HttpOutcome.connectionFailure : HttpOutcome Nat)).result = .error e5 ∧
      (makeRequest cfgSim "business-units/find" none
          (HttpOutcome.response 503 "denied" (0 : Nat))).result = .error e6 ∧
      (makeRequest cfgSim "business-units/find" none
          (HttpOutcome.requestException "boom" : HttpOutcome Nat)).result = .error e7 ∧
      e1.kind = ErrorKind.authenticationError ∧
      e2.kind = ErrorKind.notFoundError ∧
      e3.kind = ErrorKind.rateLimitError ∧
      e4.kind = ErrorKind.timeoutError ∧
      e5.kind = ErrorKind.connectionError ∧
      e6.kind = ErrorKind.requestErrorKind ∧
      e7.kind = ErrorKind.requestErrorKind ∧
      List.Pairwise (fun a b => a ≠ b)
        [e1.kind, e2.kind, e3.kind, e4.kind, e5.kind, e6.kind]) :=
  ⟨by decide,
   apiErrors_one_family_by_kind cfgSim "business-units/find" none "denied" (0 : Nat)
     "boom" 503 (by decide) (by decide) (by decide) (by decide)⟩

/-- **C5, counterexample.** The claim says the executor pauses for the
inter-request delay on every invocation, including network-level
failures; but `time.sleep` sits inside the `try` block after
`session.get`, so when the GET raises (here: a timeout) the sleep is
skipped. -/
theorem makeRequest_timeout_skips_sleep_cex :
    (makeRequest cfgSim "business-units/find" none
        (HttpOutcome.timeout : HttpOutcome Nat)).slept = false := rfl

/-- **C5, amended.** The executor pauses for the configured
inter-request delay exactly when the HTTP exchange produced a response
(of any status, success or error); when the exchange fails at network
level (timeout, connection failure, or any other transport exception)
it returns without pausing. -/
theorem makeRequest_sleep_iff_response (config : TrustpilotConfig) (endpoint : String)
    (params : Option (List (String × ParamVal))) (net : HttpOutcome α) :
    (makeRequest config endpoint params net).slept = net.isResponse := by
  cases net <;> rfl

/-! ## Claim theorems: single-page operations -/

/-- **C6.** `get_reviews` sends `perPage = min(per_page, 100)` on the
wire: inputs above 100 are clamped to exactly 100, inputs at most 100
are sent unchanged. -/
theorem get_reviews_perPage_clamped (config : TrustpilotConfig) (buid : String)
    (per_page page : Int) (net : HttpOutcome α) :
    (get_reviews config buid per_page page net).issued.params
      = some [("perPage", .num (min per_page 100)), ("page", .num page)] ∧
    min per_page 100 = if 100 < per_page then (100 : Int) else per_page := by
  constructor
  · cases net <;> rfl
  · split
    · exact min_eq_right (by omega)
    · exact min_eq_left (by omega)

/-- **C8.** `find_business_unit` issues one GET to the search endpoint
whose query parameters are exactly the single pair `name = domain`
(whatever the network then does), and a 200 response makes it return
the decoded JSON body unchanged. -/
theorem find_business_unit_request_and_payload (config : TrustpilotConfig)
    (domain : String) (text : String) (json : α) (net : HttpOutcome α) :
    (find_business_unit config domain net).issued
      = ⟨config.base_url ++ "/" ++ "business-units/find",
         some [("name", .str domain)]⟩ ∧
    (find_business_unit config domain (.response 200 text json)).result
      = .ok json := by
  constructor
  · cases net <;> rfl
  · rfl

/-! ## Claim theorems: pagination -/

/-- With `max_pages = 0` the guard is skipped (Python truthiness of
`0`), so the loop behaves exactly as with `max_pages = None`. -/
theorem getAllReviewsLoop_maxPages_zero (config : TrustpilotConfig) (buid : String)
    (stream : Int → HttpOutcome (ReviewsPayload ρ)) :
    ∀ (fuel : Nat) (page : Int) (acc : List ρ) (issued : List IssuedRequest),
      getAllReviewsLoop config buid stream (some 0) fuel page acc issued
        = getAllReviewsLoop config buid stream none fuel page acc issued := by
  intro fuel
  induction fuel with
  | zero => intro page acc issued; rfl
  | succ n ih =>
      intro page acc issued
      have hg : maxPagesStop (some 0) page = false := by simp [maxPagesStop]
      have hg' : maxPagesStop none page = false := rfl
      cases hres : (get_reviews config buid 100 page (stream page)).result with
      | error e =>
          rw [loop_step_error config buid stream (some 0) n page acc issued e hg hres,
              loop_step_error config buid stream none n page acc issued e hg' hres]
      | ok payload =>
          by_cases hemp : payload.reviews.getD [] = []
          · rw [loop_step_empty config buid stream (some 0) n page acc issued payload hg hres hemp,
                loop_step_empty config buid stream none n page acc issued payload hg' hres hemp]
          · by_cases hlen : (payload.reviews.getD []).length < 100
            · rw [loop_step_short config buid stream (some 0) n page acc issued payload
                    hg hres hemp hlen,
                  loop_step_short config buid stream none n page acc issued payload
                    hg' hres hemp hlen]
            · rw [loop_step_full config buid stream (some 0) n page acc issued payload
                    hg hres (by omega),
                  loop_step_full config buid stream none n page acc issued payload
                    hg' hres (by omega)]
              exact ih (page + 1) (acc ++ payload.reviews.getD [])
                (issued ++ [reviewsRequest config buid page])

/-- **C9.** Calling `get_all_reviews` with `max_pages = 0` skips the
limit check entirely (`0` is falsy), so pagination proceeds exactly as
if no maximum page count had been configured, instead of stopping
before the first request. -/
theorem get_all_reviews_maxPages_zero (config : TrustpilotConfig) (buid : String)
    (stream : Int → HttpOutcome (ReviewsPayload ρ)) (fuel : Nat) :
    (∀ page : Int, maxPagesStop (some 0) page = false) ∧
    get_all_reviews config buid stream (some 0) fuel
      = get_all_reviews config buid stream none fuel := by
  constructor
  · intro page; simp [maxPagesStop]
  · exact getAllReviewsLoop_maxPages_zero config buid stream fuel 1 [] []

/-- Core lemma for C1: if pages `q, …, q+n-1` respond 200 with full
(at least 100 reviews, as extracted) pages and the request for page
`q+n` fails, the loop appends those pages to the accumulator in page
order, issues the `n+1` requests, and returns normally. -/
theorem getAllReviewsLoop_error_partial (config : TrustpilotConfig) (buid : String)
    (stream : Int → HttpOutcome (ReviewsPayload ρ)) (pages : Int → List ρ) :
    ∀ (n : Nat) (q : Int), 1 ≤ q →
      (∀ p : Int, q ≤ p → p < q + n →
        ∃ text payload, stream p = .response 200 text payload ∧
          payload.reviews = some (pages p) ∧ 100 ≤ (pages p).length) →
      (∃ e, (get_reviews config buid 100 (q + n) (stream (q + n))).result
        = .error e) →
      ∀ (acc : List ρ) (issued : List IssuedRequest) (fuel : Nat), n + 1 ≤ fuel →
        getAllReviewsLoop config buid stream none fuel q acc issued
          = some ⟨acc ++ concatPages pages q n,
                  issued ++ reviewsRequests config buid q (n + 1)⟩ := by
  intro n
  induction n with
  | zero =>
      intro q hq hfull hfail acc issued fuel hfuel
      simp only [Nat.cast_zero, add_zero] at hfail
      obtain ⟨e, he⟩ := hfail
      obtain ⟨f, rfl⟩ : ∃ f, fuel = f + 1 := ⟨fuel - 1, by omega⟩
      rw [loop_step_error config buid stream none f q acc issued e rfl he]
      simp [concatPages, reviewsRequests]
  | succ n ih =>
      intro q hq hfull hfail acc issued fuel hfuel
      obtain ⟨f, rfl⟩ : ∃ f, fuel = f + 1 := ⟨fuel - 1, by omega⟩
      obtain ⟨text, payload, hstream, hrev, hlen⟩ :=
        hfull q le_rfl (by push_cast; omega)
      have hok : (get_reviews config buid 100 q (stream q)).result = .ok payload := by
        rw [hstream]; rfl
      have hgd : payload.reviews.getD [] = pages q := by rw [hrev]; rfl
      rw [loop_step_full config buid stream none f q acc issued payload rfl hok
            (by rw [hgd]; exact hlen), hgd]
      have hfull' : ∀ p : Int, q + 1 ≤ p → p < (q + 1) + n →
          ∃ text payload, stream p = .response 200 text payload ∧
            payload.reviews = some (pages p) ∧ 100 ≤ (pages p).length := by
        intro p h1 h2
        exact hfull p (by omega) (by push_cast at h2 ⊢; omega)
      have hfail' : ∃ e,
          (get_reviews config buid 100 ((q + 1) + n) (stream ((q + 1) + n))).result
            = .error e := by
        rw [show (q + 1) + (n : Int) = q + ((n + 1 : Nat) : Int) by push_cast; ring]
        exact hfail
      rw [ih (q + 1) (by omega) hfull' hfail' (acc ++ pages q)
            (issued ++ [reviewsRequest config buid q]) f (by omega)]
      simp [concatPages, reviewsRequests, List.append_assoc]

/-- **C1.** If page 1 up to page `k-1` succeed with full (non-empty)
review lists and the request for page `k` fails with an API error,
`get_all_reviews` stops at the failing page, does not propagate the
error (it returns normally, a `some`), returns exactly the reviews
accumulated from the pages that succeeded before the failure,
concatenated in page order, and performs exactly `k` page requests. -/
theorem get_all_reviews_stops_on_error (config : TrustpilotConfig) (buid : String)
    (stream : Int → HttpOutcome (ReviewsPayload ρ)) (pages : Int → List ρ)
    (k : Nat) (hk : 2 ≤ k)
    (hfull : ∀ p : Int, 1 ≤ p → p < k →
      ∃ text payload, stream p = .response 200 text payload ∧
        payload.reviews = some (pages p) ∧ 100 ≤ (pages p).length)
    (hfail : ∃ e, (get_reviews config buid 100 k (stream k)).result = .error e)
    (fuel : Nat) (hfuel : k ≤ fuel) :
    get_all_reviews config buid stream none fuel
      = some ⟨concatPages pages 1 (k - 1), reviewsRequests config buid 1 k⟩ ∧
    (reviewsRequests config buid 1 k).length = k := by
  refine ⟨?_, reviewsRequests_length config buid k 1⟩
  have hcast : (1 : Int) + ((k - 1 : Nat) : Int) = (k : Int) := by omega
  have hfull' : ∀ p : Int, 1 ≤ p → p < 1 + ((k - 1 : Nat) : Int) →
      ∃ text payload, stream p = .response 200 text payload ∧
        payload.reviews = some (pages p) ∧ 100 ≤ (pages p).length := by
    intro p h1 h2
    exact hfull p h1 (by omega)
  have hfail' : ∃ e,
      (get_reviews config buid 100 (1 + ((k - 1 : Nat) : Int))
        (stream (1 + ((k - 1 : Nat) : Int)))).result = .error e := by
    rw [hcast]; exact hfail
  have h := getAllReviewsLoop_error_partial config buid stream pages (k - 1) 1
    le_rfl hfull' hfail' [] [] fuel (by omega)
  rw [show k - 1 + 1 = k by omega] at h
  simpa [get_all_reviews] using h

/-- Witness for C1: the simulated stream where page 1 returns 100
reviews and page 2 answers HTTP 429 (rate limit): the call returns
exactly the 100 reviews of page 1 and issues exactly 2 requests. -/
theorem get_all_reviews_stops_on_error_witness :
    get_all_reviews cfgSim "acme" errStream none 2
      = some ⟨concatPages (fun p => if p = 1 then List.range 100 else []) 1 (2 - 1),
              reviewsRequests cfgSim "acme" 1 2⟩ ∧
    (reviewsRequests cfgSim "acme" 1 2).length = 2 :=
  get_all_reviews_stops_on_error cfgSim "acme" errStream
    (fun p => if p = 1 then List.range 100 else []) 2 (by decide)
    (fun p h1 h2 => by
      have hp : p = 1 := by omega
      subst hp
      exact ⟨"", ⟨some (List.range 100)⟩, rfl, by simp, by simp⟩)
    ⟨.rateLimit, rfl⟩ 2 (by decide)

/-- **C2.** On the simulated stream (pages of 100, 100 and 42 reviews)
with no max-pages limit, `get_all_reviews` returns exactly the 242
reviews concatenated in page order and issues exactly 3 page requests,
each with `perPage = 100`. -/
theorem get_all_reviews_three_pages :
    get_all_reviews cfgSim "acme" simStream none 10
      = some ⟨simPages 1 ++ simPages 2 ++ simPages 3,
              [reviewsRequest cfgSim "acme" 1, reviewsRequest cfgSim "acme" 2,
               reviewsRequest cfgSim "acme" 3]⟩ ∧
    simPages 1 ++ simPages 2 ++ simPages 3 = List.range 242 ∧
    (simPages 1).length = 100 ∧ (simPages 2).length = 100 ∧
    (simPages 3).length = 42 ∧
    (reviewsRequest cfgSim "acme" 1).params
        = some [("perPage", ParamVal.num 100), ("page", ParamVal.num 1)] ∧
    (reviewsRequest cfgSim "acme" 2).params
        = some [("perPage", ParamVal.num 100), ("page", ParamVal.num 2)] ∧
    (reviewsRequest cfgSim "acme" 3).params
        = some [("perPage", ParamVal.num 100), ("page", ParamVal.num 3)] := by
  set_option maxRecDepth 20000 in
  refine ⟨by decide, by decide, by decide, by decide, by decide, rfl, rfl, rfl⟩

/-- **C7.** On the same simulated stream with a max-pages limit of 1,
`get_all_reviews` returns exactly the 100 reviews of page 1 and issues
exactly 1 page request. -/
theorem get_all_reviews_maxPages_one :
    get_all_reviews cfgSim "acme" simStream (some 1) 10
      = some ⟨simPages 1, [reviewsRequest cfgSim "acme" 1]⟩ ∧
    (simPages 1).length = 100 := by
  refine ⟨?_, by decide⟩
  set_option maxRecDepth 20000 in decide

/-- With a positive `max_pages = m`, the loop started at page `q ≥ 1`
returns within `(m + 1 - q).toNat + 1` iterations: the page counter
increases until the guard fires, if nothing stops it earlier. -/
theorem loop_terminates_of_pos (config : TrustpilotConfig) (buid : String)
    (stream : Int → HttpOutcome (ReviewsPayload ρ)) (m : Int) (hm : 0 < m) :
    ∀ (d : Nat) (q : Int) (acc : List ρ) (issued : List IssuedRequest),
      1 ≤ q → (m + 1 - q).toNat ≤ d →
      ∃ r, getAllReviewsLoop config buid stream (some m) (d + 1) q acc issued
        = some r := by
  intro d
  induction d with
  | zero =>
      intro q acc issued hq hd
      have hguard : maxPagesStop (some m) q = true := by
        have h1 : m ≠ 0 := by omega
        have h2 : m < q := by omega
        simp [maxPagesStop, h1, h2]
      exact ⟨⟨acc, issued⟩,
        loop_step_guard config buid stream (some m) 0 q acc issued hguard⟩
  | succ d ih =>
      intro q acc issued hq hd
      by_cases hguard : maxPagesStop (some m) q = true
      · exact ⟨⟨acc, issued⟩,
          loop_step_guard config buid stream (some m) (d + 1) q acc issued hguard⟩
      · have hguard' : maxPagesStop (some m) q = false :=
          Bool.eq_false_iff.mpr hguard
        have hqm : q ≤ m := by
          by_contra hcon
          have h1 : m ≠ 0 := by omega
          have h2 : m < q := by omega
          exact hguard (by simp [maxPagesStop, h1, h2])
        cases hres : (get_reviews config buid 100 q (stream q)).result with
        | error e =>
            exact ⟨⟨acc, issued ++ [reviewsRequest config buid q]⟩,
              loop_step_error config buid stream (some m) (d + 1) q acc issued e
                hguard' hres⟩
        | ok payload =>
            by_cases hemp : payload.reviews.getD [] = []
            · exact ⟨⟨acc, issued ++ [reviewsRequest config buid q]⟩,
                loop_step_empty config buid stream (some m) (d + 1) q acc issued
                  payload hguard' hres hemp⟩
            · by_cases hlen : (payload.reviews.getD []).length < 100
              · exact ⟨⟨acc ++ payload.reviews.getD [],
                    issued ++ [reviewsRequest config buid q]⟩,
                  loop_step_short config buid stream (some m) (d + 1) q acc issued
                    payload hguard' hres hemp hlen⟩
              · obtain ⟨r, hr⟩ := ih (q + 1) (acc ++ payload.reviews.getD [])
                  (issued ++ [reviewsRequest config buid q]) (by omega) (by omega)
                exact ⟨r, by
                  rw [loop_step_full config buid stream (some m) (d + 1) q acc issued
                        payload hguard' hres (by omega)]
                  exact hr⟩

/-- With no `max_pages`, a loop run that returns must have met a
stopping page at or after its start page. -/
theorem loop_some_stops (config : TrustpilotConfig) (buid : String)
    (stream : Int → HttpOutcome (ReviewsPayload ρ)) :
    ∀ (fuel : Nat) (q : Int) (acc : List ρ) (issued : List IssuedRequest)
      (r : AggResult ρ),
      getAllReviewsLoop config buid stream none fuel q acc issued = some r →
      ∃ p : Int, q ≤ p ∧ pageStops config buid stream p = true := by
  intro fuel
  induction fuel with
  | zero =>
      intro q acc issued r h
      exact absurd h (by simp [getAllReviewsLoop])
  | succ f ih =>
      intro q acc issued r h
      cases hres : (get_reviews config buid 100 q (stream q)).result with
      | error e => exact ⟨q, le_rfl, by simp [pageStops, hres]⟩
      | ok payload =>
          by_cases hemp : payload.reviews.getD [] = []
          · exact ⟨q, le_rfl, by simp [pageStops, hres, hemp]⟩
          · by_cases hlen : (payload.reviews.getD []).length < 100
            · exact ⟨q, le_rfl, by simp [pageStops, hres, hlen]⟩
            · rw [loop_step_full config buid stream none f q acc issued payload
                    rfl hres (by omega)] at h
              obtain ⟨p, hp1, hp2⟩ := ih _ _ _ _ h
              exact ⟨p, by omega, hp2⟩

/-- With no `max_pages`, a stopping page `d` pages ahead of the start
page makes the loop return within `d + 1` iterations. -/
theorem loop_stops_terminates (config : TrustpilotConfig) (buid : String)
    (stream : Int → HttpOutcome (ReviewsPayload ρ)) :
    ∀ (d : Nat) (q : Int) (acc : List ρ) (issued : List IssuedRequest),
      pageStops config buid stream (q + d) = true →
      ∃ r, getAllReviewsLoop config buid stream none (d + 1) q acc issued
        = some r := by
  intro d
  induction d with
  | zero =>
      intro q acc issued hstop
      simp only [Nat.cast_zero, add_zero] at hstop
      cases hres : (get_reviews config buid 100 q (stream q)).result with
      | error e =>
          exact ⟨⟨acc, issued ++ [reviewsRequest config buid q]⟩,
            loop_step_error config buid stream none 0 q acc issued e rfl hres⟩
      | ok payload =>
          by_cases hemp : payload.reviews.getD [] = []
          · exact ⟨⟨acc, issued ++ [reviewsRequest config buid q]⟩,
              loop_step_empty config buid stream none 0 q acc issued payload
                rfl hres hemp⟩
          · have hlen : (payload.reviews.getD []).length < 100 := by
              simp [pageStops, hres, hemp] at hstop
              exact hstop
            exact ⟨⟨acc ++ payload.reviews.getD [],
                issued ++ [reviewsRequest config buid q]⟩,
              loop_step_short config buid stream none 0 q acc issued payload
                rfl hres hemp hlen⟩
  | succ d ih =>
      intro q acc issued hstop
      cases hres : (get_reviews config buid 100 q (stream q)).result with
      | error e =>
          exact ⟨⟨acc, issued ++ [reviewsRequest config buid q]⟩,
            loop_step_error config buid stream none (d + 1) q acc issued e rfl hres⟩
      | ok payload =>
          by_cases hemp : payload.reviews.getD [] = []
          · exact ⟨⟨acc, issued ++ [reviewsRequest config buid q]⟩,
              loop_step_empty config buid stream none (d + 1) q acc issued payload
                rfl hres hemp⟩
          · by_cases hlen : (payload.reviews.getD []).length < 100
            · exact ⟨⟨acc ++ payload.reviews.getD [],
                  issued ++ [reviewsRequest config buid q]⟩,
                loop_step_short config buid stream none (d + 1) q acc issued payload
                  rfl hres hemp hlen⟩
            · have hstop' :
                  pageStops config buid stream ((q + 1) + (d : Int)) = true := by
                rw [show (q + 1) + (d : Int) = q + ((d + 1 : Nat) : Int) by
                  push_cast; ring]
                exact hstop
              obtain ⟨r, hr⟩ := ih (q + 1) (acc ++ payload.reviews.getD [])
                (issued ++ [reviewsRequest config buid q]) hstop'
              exact ⟨r, by
                rw [loop_step_full config buid stream none (d + 1) q acc issued payload
                      rfl hres (by omega)]
                exact hr⟩

/-- **C10.** `get_all_reviews` terminates for every page-response
stream when `max_pages` is a positive integer; with no `max_pages` it
terminates if and only if some page (at or after page 1) stops the
loop: its request fails with an API error, or its review list is empty
or has fewer than 100 reviews. -/
theorem get_all_reviews_termination (config : TrustpilotConfig) (buid : String) :
    (∀ (stream : Int → HttpOutcome (ReviewsPayload ρ)) (m : Int), 0 < m →
      Terminates config buid stream (some m)) ∧
    (∀ stream : Int → HttpOutcome (ReviewsPayload ρ),
      Terminates config buid stream none ↔
        ∃ p : Int, 1 ≤ p ∧ pageStops config buid stream p = true) := by
  constructor
  · intro stream m hm
    obtain ⟨r, hr⟩ := loop_terminates_of_pos config buid stream m hm
      (m + 1 - 1).toNat 1 [] [] le_rfl (by omega)
    exact ⟨(m + 1 - 1).toNat + 1, r, hr⟩
  · intro stream
    constructor
    · rintro ⟨fuel, r, hr⟩
      exact loop_some_stops config buid stream fuel 1 [] [] r hr
    · rintro ⟨p, hp1, hp2⟩
      have hstop : pageStops config buid stream (1 + (((p - 1).toNat : Nat) : Int))
          = true := by
        rw [show (1 : Int) + (((p - 1).toNat : Nat) : Int) = p by omega]
        exact hp2
      obtain ⟨r, hr⟩ := loop_stops_terminates config buid stream
        (p - 1).toNat 1 [] [] hstop
      exact ⟨(p - 1).toNat + 1, r, hr⟩

/-- Witness for C10: on the simulated three-page stream the call
terminates both with `max_pages = 3` and with no `max_pages` (page 3
has 42 < 100 reviews). -/
theorem get_all_reviews_termination_witness :
    Terminates cfgSim "acme" simStream (some 3) ∧
    Terminates cfgSim "acme" simStream none :=
  ⟨(get_all_reviews_termination cfgSim "acme").1 simStream 3 (by decide),
   ((get_all_reviews_termination cfgSim "acme").2 simStream).mpr
     ⟨3, by decide, by set_option maxRecDepth 20000 in decide⟩⟩

end Trustpilot
